import Mathlib

/-!
Verification development for the navo-app location forwarder.

The repository contains three revisions of the foreground application
(two in App.tsx, one unnamed) and a background location-task module.
The definitions below embed, from the source:

* the change-gate hasLocationChanged of the first App.tsx revision,
  with its haversine distance (Earth radius 6371000 m, threshold 5 m);
* the transmitter sendLocation (identical in all three revisions);
* the lifecycle controller: startSending / stopSending and the interval
  tick callback of the first App.tsx revision, plus the startSending of
  the unnamed revision (startSending_v2), which never disarms a timer;
* the background task callback and the options passed to the platform
  continuous-updates API.

Effects (HTTP requests, alerts, armed platform timers) are made explicit
in the state and in result records; environment inputs (permission
results, location fixes, transport outcomes, generated timestamps) are
passed as parameters.
-/

namespace NavoApp

/-- Coordinate pair as destructured from a location fix. -/
structure Coordinates where
  latitude : ℝ
  longitude : ℝ

/-- Entry stored in the last-known-location display state:
latitude, longitude and the ISO-8601 timestamp string. -/
structure LocationFix where
  latitude : ℝ
  longitude : ℝ
  timestamp : String

/-- A repeating platform timer armed via setInterval: its handle and the
interval, in milliseconds, it was armed with. -/
structure TimerRec where
  tid : Nat
  intervalMs : Nat
deriving DecidableEq

/-- One outbound HTTP POST: the target URL, the JSON content-type header,
and the JSON body fields latitude, longitude, timestamp. -/
structure PostRequest where
  url : String
  contentTypeJson : Bool
  latitude : ℝ
  longitude : ℝ
  timestamp : String

/-- Outcome of one fetch call: either the promise rejects (network
failure), or a response arrives with a status code, an ok flag and an
optional message field parsed from the JSON body. -/
inductive TransportOutcome where
  | networkFailure : TransportOutcome
  | response (status : Nat) (ok : Bool) (jsonMessage : Option String) : TransportOutcome

/-- The React component state of the controller, together with the
closure variable initialLocationData of the tick callback
(prevLocation) and the set of repeating timers currently armed at the
platform level (armedTimers, with nextTimerId the next fresh handle). -/
structure ControllerState where
  apiUrl : String
  isSending : Bool
  isDisabled : Bool
  loading : Bool
  location : Option LocationFix
  errorMessage : Option String
  intervalId : Option Nat
  prevLocation : Option Coordinates
  armedTimers : List TimerRec
  nextTimerId : Nat

/-- Threshold of the change-gate, in meters (thresholdMeters = 5 in the
first App.tsx revision). -/
def thresholdMeters : ℝ := 5

/-- Interval passed to setInterval by every revision of startSending:
10000 milliseconds. -/
def foregroundIntervalMs : Nat := 10000

/-- Degree-to-radian conversion used by the distance calculation. -/
noncomputable def toRadians (angle : ℝ) : ℝ := angle * Real.pi / 180

/-- Two-argument arctangent with the quadrant conventions of the
platform Math.atan2 function. -/
noncomputable def atan2 (y x : ℝ) : ℝ :=
  if 0 < x then Real.arctan (y / x)
  else if x < 0 then
    (if 0 ≤ y then Real.arctan (y / x) + Real.pi else Real.arctan (y / x) - Real.pi)
  else if 0 < y then Real.pi / 2
  else if y < 0 then -(Real.pi / 2)
  else 0

/-- The haversine great-circle distance computation of
calculateDistanceInMeters in the first App.tsx revision:
Earth radius 6371000 meters, half-angle sines, atan2 form. -/
noncomputable def calculateDistanceInMeters (lat1 lon1 lat2 lon2 : ℝ) : ℝ :=
  let R : ℝ := 6371000
  let phi1 := toRadians lat1
  let phi2 := toRadians lat2
  let dphi := toRadians (lat2 - lat1)
  let dlam := toRadians (lon2 - lon1)
  let a := Real.sin (dphi / 2) * Real.sin (dphi / 2) +
    Real.cos phi1 * Real.cos phi2 * Real.sin (dlam / 2) * Real.sin (dlam / 2)
  let c := 2 * atan2 (Real.sqrt a) (Real.sqrt (1 - a))
  R * c

/-- The change-gate hasLocationChanged: with no previous sample it
reports a change; otherwise it reports a change exactly when the
haversine distance exceeds thresholdMeters. -/
def hasLocationChanged (prevLocation : Option Coordinates) (newLocation : Coordinates) : Prop :=
  match prevLocation with
  | none => True
  | some p =>
      calculateDistanceInMeters p.latitude p.longitude
        newLocation.latitude newLocation.longitude > thresholdMeters

/-- Character-list helper: the first list starts the second. -/
def charsStartWith : List Char → List Char → Bool
  | [], _ => true
  | _ :: _, [] => false
  | p :: ps, c :: cs => p == c && charsStartWith ps cs

/-- Character-list helper: the first list occurs contiguously inside the
second. -/
def charsContain (pat : List Char) : List Char → Bool
  | [] => charsStartWith pat []
  | c :: cs => charsStartWith pat (c :: cs) || charsContain pat cs

/-- The substring test of the JavaScript includes method, as used by the
error classifier on exception messages. -/
def stringIncludes (s pat : String) : Bool :=
  charsContain pat.toList s.toList

/-- The error classifier of the catch block in sendLocation: it maps the
caught exception message to one of three fixed user-facing strings by
substring matching. -/
def classifyErrorMessage (m : String) : String :=
  if stringIncludes m "Network request failed" then
    "Network request failed. Please check your connection or API server."
  else if stringIncludes m "Failed to send location data" then
    "Failed to send location data. Please check your API server."
  else
    "An unexpected error occurred"

/-- The fallback applied to the message field of a JSON error body:
an absent or empty message falls back to the generic text, matching the
JavaScript truthiness test. -/
def messageOrFallback : Option String → String
  | none => "Failed to send location data"
  | some m => if m = "" then "Failed to send location data" else m

/-- Result of one sendLocation invocation: the updated controller state,
the POST request that was issued, the message of the exception caught in
the catch block when one was raised, and the message shown by the alert
when one was shown. -/
structure SendResult where
  state : ControllerState
  request : PostRequest
  raised : Option String
  alert : Option String

/-- The transmitter sendLocation, identical in all three revisions.
It issues one POST with the latitude, longitude and a freshly generated
timestamp. On a response with ok set, it stores the transmitted sample
as the last known location and clears the error message. On a response
without ok, it raises an error message built from the status code and
the JSON body message (with fallback), which its own catch block then
classifies into a fixed user-facing string, stored and alerted. On a
network failure the rejection message is classified the same way.
The loading and isDisabled flags are set on entry and reset in the
finally block, so the returned state carries their final values. -/
def sendLocation (latitude longitude : ℝ) (timestamp : String)
    (transport : TransportOutcome) (st : ControllerState) : SendResult :=
  let req : PostRequest :=
    { url := st.apiUrl, contentTypeJson := true,
      latitude := latitude, longitude := longitude, timestamp := timestamp }
  match transport with
  | .networkFailure =>
      let raisedMsg := "Network request failed"
      let message := classifyErrorMessage raisedMsg
      { state := { st with errorMessage := some message, loading := false, isDisabled := false },
        request := req, raised := some raisedMsg, alert := some message }
  | .response status ok jsonMessage =>
      if ok then
        { state := { st with
                       location := some ⟨latitude, longitude, timestamp⟩,
                       errorMessage := none, loading := false, isDisabled := false },
          request := req, raised := none, alert := none }
      else
        let raisedMsg := "Error " ++ toString status ++ ": " ++ messageOrFallback jsonMessage
        let message := classifyErrorMessage raisedMsg
        { state := { st with errorMessage := some message, loading := false, isDisabled := false },
          request := req, raised := some raisedMsg, alert := some message }

/-- clearInterval on a handle: the timer with that handle is removed
from the set of armed platform timers. -/
def clearTimer (id : Nat) (l : List TimerRec) : List TimerRec :=
  l.filter (fun t => t.tid != id)

/-- The guard shared by startSending and stopSending of the first
App.tsx revision: if intervalId holds a handle, clearInterval it and
reset intervalId to none. -/
def clearExistingTimer (st : ControllerState) : ControllerState :=
  match st.intervalId with
  | some id => { st with armedTimers := clearTimer id st.armedTimers, intervalId := none }
  | none => st

/-- The setLocation call after the initial send in the first App.tsx
revision, together with setting the closure variable
initialLocationData that the tick gate compares against. -/
def recordInitialLocation (c : Coordinates) (displayTimestamp : String)
    (st : ControllerState) : ControllerState :=
  { st with location := some ⟨c.latitude, c.longitude, displayTimestamp⟩,
            prevLocation := some c }

/-- The setInterval call followed by setIntervalId: a repeating timer
with a fresh handle and the 10000 ms interval is armed at the platform
and its handle is stored in the component state. -/
def armNewTimer (st : ControllerState) : ControllerState :=
  { st with armedTimers := ⟨st.nextTimerId, foregroundIntervalMs⟩ :: st.armedTimers,
            intervalId := some st.nextTimerId, nextTimerId := st.nextTimerId + 1 }

/-- Environment of one startSending invocation: the two permission
results, the initial location fix (none when getCurrentPositionAsync
rejects), the transport outcome of the initial send, and the two
timestamps generated during the sequence. -/
structure StartEnv where
  foregroundGranted : Bool
  backgroundGranted : Bool
  initialFix : Option Coordinates
  initialTransport : TransportOutcome
  sendTimestamp : String
  displayTimestamp : String

/-- Result of one startSending invocation: final state, the POST
requests issued during it, and the alert messages shown. -/
structure StartResult where
  state : ControllerState
  requests : List PostRequest
  alerts : List String

/-- startSending of the first App.tsx revision: sets isSending, disarms
any existing timer, then checks in order the endpoint configuration, the
foreground permission and the background permission, each failure
alerting and resetting to idle. It then fetches and sends the initial
location (a fetch failure aborts to idle), records it as the display
location and as the previous location for the gate, and arms the
repeating timer with a fresh handle. -/
def startSending (env : StartEnv) (st : ControllerState) : StartResult :=
  let st1 := clearExistingTimer { st with isSending := true }
  if st1.apiUrl = "" then
    { state := { st1 with isSending := false, loading := false, isDisabled := false },
      requests := [], alerts := ["API URL is not set"] }
  else if env.foregroundGranted = false then
    { state := { st1 with isSending := false, loading := false, isDisabled := false },
      requests := [], alerts := ["Permission Denied"] }
  else if env.backgroundGranted = false then
    { state := { st1 with isSending := false, loading := false, isDisabled := false },
      requests := [], alerts := ["Background Permission Required"] }
  else
    match env.initialFix with
    | none =>
        { state := { st1 with isSending := false, loading := false, isDisabled := false },
          requests := [], alerts := [] }
    | some c =>
        let r := sendLocation c.latitude c.longitude env.sendTimestamp env.initialTransport st1
        { state := armNewTimer (recordInitialLocation c env.displayTimestamp r.state),
          requests := [r.request], alerts := r.alert.toList }

/-- startSending of the unnamed revision (part_000): same guard order,
but it never disarms an existing timer, does not track a previous
location for the tick, and sets isSending only after arming. -/
def startSending_v2 (env : StartEnv) (st : ControllerState) : StartResult :=
  if st.apiUrl = "" then
    { state := { st with isDisabled := false }, requests := [], alerts := ["API URL is not set"] }
  else if env.foregroundGranted = false then
    { state := { st with isDisabled := false }, requests := [],
      alerts := ["Permission to access location was denied"] }
  else if env.backgroundGranted = false then
    { state := { st with isDisabled := false }, requests := [],
      alerts := ["Background location permission is required"] }
  else
    match env.initialFix with
    | none =>
        { state := { st with isDisabled := false }, requests := [], alerts := [] }
    | some c =>
        let r := sendLocation c.latitude c.longitude env.sendTimestamp env.initialTransport st
        { state := armNewTimer { r.state with isSending := true },
          requests := [r.request], alerts := r.alert.toList }

/-- stopSending of the first App.tsx revision: disarm the timer held in
intervalId, then reset isSending, loading, isDisabled, clear the error
message and clear the last-known-location display state. -/
def stopSending (st : ControllerState) : ControllerState :=
  let st1 := clearExistingTimer st
  { st1 with
    isSending := false, loading := false, isDisabled := false,
    errorMessage := none, location := none }

/-- Environment of one timer tick: either the location fetch rejects, or
it yields a coordinate together with the transport outcome and the two
timestamps the tick would generate if it sends. -/
inductive TickEnv where
  | fixFailure : TickEnv
  | fix (c : Coordinates) (transport : TransportOutcome)
      (sendTimestamp displayTimestamp : String) : TickEnv

open Classical in
/-- Body of the interval callback of the first App.tsx revision: a fetch
failure is caught and logged, leaving the state unchanged; otherwise,
when a previous location exists and the change-gate reports a change,
it sends, updates the display location and advances the previous
location to the new coordinate. -/
noncomputable def tickBody (env : TickEnv) (st : ControllerState) :
    ControllerState × List PostRequest :=
  match env with
  | .fixFailure => (st, [])
  | .fix c transport ts dts =>
      match st.prevLocation with
      | none => (st, [])
      | some p =>
          if hasLocationChanged (some p) c then
            let r := sendLocation c.latitude c.longitude ts transport st
            ({ r.state with
                 location := some ⟨c.latitude, c.longitude, dts⟩, prevLocation := some c },
              [r.request])
          else (st, [])

/-- One scheduler step: the platform fires the timer with handle t only
when that timer is armed; its callback is the interval body. -/
noncomputable def fireTimer (t : Nat) (env : TickEnv) (st : ControllerState) :
    ControllerState × List PostRequest :=
  if st.armedTimers.any (fun r => r.tid == t) then tickBody env st else (st, [])

/-- A sequence of scheduler steps, accumulating the POST requests they
issue. -/
noncomputable def fireTimers (evs : List (Nat × TickEnv)) (st : ControllerState) :
    ControllerState × List PostRequest :=
  match evs with
  | [] => (st, [])
  | (t, e) :: rest =>
      let p1 := fireTimer t e st
      let p2 := fireTimers rest p1.1
      (p2.1, p1.2 ++ p2.2)

/-- Single-timer invariant of the first App.tsx revision: the armed
platform timers are exactly the one referenced by intervalId, and every
armed handle is below the next fresh handle. -/
def timerInv (st : ControllerState) : Prop :=
  st.armedTimers.map TimerRec.tid = st.intervalId.toList ∧
  ∀ r ∈ st.armedTimers, r.tid < st.nextTimerId

instance timerInvDecidable (st : ControllerState) : Decidable (timerInv st) :=
  inferInstanceAs (Decidable (st.armedTimers.map TimerRec.tid = st.intervalId.toList ∧
    ∀ r ∈ st.armedTimers, r.tid < st.nextTimerId))

/-- A location object delivered to the background task callback. -/
structure BgLocationObject where
  latitude : ℝ
  longitude : ℝ

/-- Observable outcome of one background task callback invocation: the
POST requests it issues, the coordinate it extracted and logged when the
extraction is defined, and whether the unguarded indexing of the first
array element failed (empty array). -/
structure BgTaskOutcome where
  requests : List PostRequest
  logged : Option (ℝ × ℝ)
  crashed : Bool

/-- The TaskManager.defineTask callback of backgroundLocationTask.ts:
on an error it returns at once; with data it destructures the first
element of the locations array without a guard (an empty array makes the
destructuring fail), logs the coordinate, and the try block that would
send to the API is an unimplemented stub, so no request is ever issued. -/
def backgroundTaskCallback (error : Bool) (data : Option (List BgLocationObject)) :
    BgTaskOutcome :=
  if error then { requests := [], logged := none, crashed := false }
  else
    match data with
    | none => { requests := [], logged := none, crashed := false }
    | some locations =>
        match locations.head? with
        | none => { requests := [], logged := none, crashed := true }
        | some l0 => { requests := [], logged := some (l0.latitude, l0.longitude), crashed := false }

/-- Options passed by startBackgroundUpdate to the platform
continuous-updates API. -/
structure LocationUpdateOptions where
  timeInterval : Nat
  distanceInterval : Nat
  showsBackgroundLocationIndicator : Bool

/-- The options used in backgroundLocationTask.ts: timeInterval 60000 ms,
distanceInterval 1 m, background indicator shown. -/
def backgroundUpdateOptions : LocationUpdateOptions :=
  { timeInterval := 60000, distanceInterval := 1, showsBackgroundLocationIndicator := true }

/-- Initial component state: empty endpoint, nothing armed, idle. -/
def emptyState : ControllerState :=
  { apiUrl := "", isSending := false, isDisabled := false, loading := false,
    location := none, errorMessage := none, intervalId := none,
    prevLocation := none, armedTimers := [], nextTimerId := 0 }

/-- A state with a configured endpoint and no armed timer. -/
def readyState : ControllerState :=
  { emptyState with apiUrl := "https:" }

/-- A state with a configured endpoint and one armed repeating timer,
handle 0, referenced by intervalId. -/
def armedState : ControllerState :=
  { emptyState with
    apiUrl := "https:", intervalId := some 0,
    armedTimers := [⟨0, foregroundIntervalMs⟩], nextTimerId := 1 }

/-- Environment in which every guard passes and the initial send
succeeds with status 200. -/
def okEnv : StartEnv :=
  { foregroundGranted := true, backgroundGranted := true,
    initialFix := some ⟨0, 0⟩, initialTransport := .response 200 true (some "ok"),
    sendTimestamp := "ts1", displayTimestamp := "ts2" }

/-- Environment in which the initial location fetch rejects. -/
def noFixEnv : StartEnv :=
  { okEnv with initialFix := none }

/-- A transport outcome: HTTP 500, not ok, JSON body message db down. -/
def dbDownResp : TransportOutcome := .response 500 false (some "db down")

/-- Environment in which every guard passes, the initial fix succeeds,
and the initial send fails with HTTP 500 and the db down body. -/
def failSendEnv : StartEnv :=
  { okEnv with initialTransport := dbDownResp }

/-! Helper lemmas -/

theorem sendLocation_preserves_timers (lat lon : ℝ) (ts : String)
    (tr : TransportOutcome) (st : ControllerState) :
    (sendLocation lat lon ts tr st).state.armedTimers = st.armedTimers ∧
    (sendLocation lat lon ts tr st).state.intervalId = st.intervalId ∧
    (sendLocation lat lon ts tr st).state.nextTimerId = st.nextTimerId := by
  cases tr with
  | networkFailure => exact ⟨rfl, rfl, rfl⟩
  | response status ok m => cases ok <;> exact ⟨rfl, rfl, rfl⟩

theorem clearExistingTimer_intervalId (st : ControllerState) :
    (clearExistingTimer st).intervalId = none := by
  cases h : st.intervalId <;> simp [clearExistingTimer, h]

theorem armedTimers_clearExisting_of_inv (st : ControllerState)
    (h : st.armedTimers.map TimerRec.tid = st.intervalId.toList) :
    (clearExistingTimer st).armedTimers = [] := by
  cases hI : st.intervalId with
  | none =>
      rw [hI] at h
      simp only [Option.toList_none] at h
      simp [clearExistingTimer, hI, List.map_eq_nil_iff.mp h]
  | some id =>
      rw [hI] at h
      cases hA : st.armedTimers with
      | nil => simp [clearExistingTimer, hI, hA, clearTimer]
      | cons r l =>
          rw [hA] at h
          simp only [List.map_cons, Option.toList_some] at h
          injection h with h1 h2
          simp [clearExistingTimer, hI, hA, clearTimer, h1, List.map_eq_nil_iff.mp h2]

theorem tickBody_preserves_timers (env : TickEnv) (st : ControllerState) :
    ((tickBody env st).1).armedTimers = st.armedTimers ∧
    ((tickBody env st).1).intervalId = st.intervalId ∧
    ((tickBody env st).1).nextTimerId = st.nextTimerId := by
  cases env with
  | fixFailure => exact ⟨rfl, rfl, rfl⟩
  | fix c tr ts dts =>
      cases hp : st.prevLocation with
      | none => simp [tickBody, hp]
      | some p =>
          by_cases hg : hasLocationChanged (some p) c
          · obtain ⟨e1, e2, e3⟩ := sendLocation_preserves_timers c.latitude c.longitude ts tr st
            simp [tickBody, hp, hg, e1, e2, e3]
          · simp [tickBody, hp, hg]

theorem fireTimer_preserves_timers (t : Nat) (env : TickEnv) (st : ControllerState) :
    ((fireTimer t env st).1).armedTimers = st.armedTimers ∧
    ((fireTimer t env st).1).intervalId = st.intervalId ∧
    ((fireTimer t env st).1).nextTimerId = st.nextTimerId := by
  unfold fireTimer
  split
  · exact tickBody_preserves_timers env st
  · exact ⟨rfl, rfl, rfl⟩

theorem fireTimers_of_no_armed (evs : List (Nat × TickEnv)) (st : ControllerState)
    (h : st.armedTimers = []) : fireTimers evs st = (st, []) := by
  induction evs with
  | nil => rfl
  | cons e rest ih =>
      obtain ⟨t, env⟩ := e
      have hf : fireTimer t env st = (st, []) := by
        unfold fireTimer
        rw [h]
        simp
      simp [fireTimers, hf, ih]

theorem clearExistingTimer_fields (st : ControllerState) :
    (clearExistingTimer st).apiUrl = st.apiUrl ∧
    (clearExistingTimer st).nextTimerId = st.nextTimerId := by
  cases h : st.intervalId <;> simp [clearExistingTimer, h]

theorem mem_clearExistingTimer (st : ControllerState) (r : TimerRec)
    (h : r ∈ (clearExistingTimer st).armedTimers) : r ∈ st.armedTimers := by
  cases hI : st.intervalId with
  | none => rw [clearExistingTimer, hI] at h; exact h
  | some id =>
      rw [clearExistingTimer, hI] at h
      simp only [clearTimer] at h
      exact (List.mem_filter.mp h).1

theorem mem_tid_of_intervalId (st : ControllerState) (id : Nat)
    (h : st.armedTimers.map TimerRec.tid = st.intervalId.toList)
    (hI : st.intervalId = some id) : ∃ r ∈ st.armedTimers, r.tid = id := by
  rw [hI] at h
  cases hA : st.armedTimers with
  | nil => rw [hA] at h; simp at h
  | cons r l =>
      rw [hA] at h
      simp only [List.map_cons, Option.toList_some] at h
      injection h with h1 h2
      exact ⟨r, by simp [hA], h1⟩

theorem startSending_timer_shape (env : StartEnv) (st : ControllerState)
    (h : st.armedTimers.map TimerRec.tid = st.intervalId.toList) :
    ((startSending env st).state.armedTimers = [] ∧
     (startSending env st).state.intervalId = none ∧
     (startSending env st).state.nextTimerId = st.nextTimerId) ∨
    ((startSending env st).state.armedTimers = [⟨st.nextTimerId, foregroundIntervalMs⟩] ∧
     (startSending env st).state.intervalId = some st.nextTimerId ∧
     (startSending env st).state.nextTimerId = st.nextTimerId + 1) := by
  have hA : (clearExistingTimer { st with isSending := true }).armedTimers = [] :=
    armedTimers_clearExisting_of_inv { st with isSending := true } h
  have hI := clearExistingTimer_intervalId { st with isSending := true }
  have hN := (clearExistingTimer_fields { st with isSending := true }).2
  simp only [startSending]
  split_ifs with h1 h2 h3
  · exact Or.inl ⟨hA, hI, hN⟩
  · exact Or.inl ⟨hA, hI, hN⟩
  · exact Or.inl ⟨hA, hI, hN⟩
  · cases hF : env.initialFix with
    | none => exact Or.inl ⟨hA, hI, hN⟩
    | some c =>
        obtain ⟨e1, e2, e3⟩ := sendLocation_preserves_timers c.latitude c.longitude
          env.sendTimestamp env.initialTransport (clearExistingTimer { st with isSending := true })
        refine Or.inr ⟨?_, ?_, ?_⟩
        · simp [armNewTimer, recordInitialLocation, e1, e3, hA, hN]
        · simp [armNewTimer, recordInitialLocation, e3, hN]
        · simp [armNewTimer, recordInitialLocation, e3, hN]

theorem atan2_zero_one : atan2 0 1 = 0 := by
  unfold atan2
  rw [if_pos (by norm_num : (0:ℝ) < 1)]
  simp [Real.arctan_zero]

theorem calculateDistance_self (lat lon : ℝ) :
    calculateDistanceInMeters lat lon lat lon = 0 := by
  unfold calculateDistanceInMeters toRadians
  simp [atan2_zero_one]

/-! Claim theorems -/

/-- Claim C8: for every send invocation whose transport returns HTTP 200
with a JSON body, the last-known-location state is updated to exactly
the transmitted latitude, longitude and the timestamp sent in the
request body, and the error message is cleared. -/
theorem sendLocation_success_updates_location (lat lon : ℝ) (ts : String)
    (m : Option String) (st : ControllerState) :
    (sendLocation lat lon ts (.response 200 true m) st).state.location =
      some { latitude := lat, longitude := lon, timestamp := ts } ∧
    (sendLocation lat lon ts (.response 200 true m) st).request.latitude = lat ∧
    (sendLocation lat lon ts (.response 200 true m) st).request.longitude = lon ∧
    (sendLocation lat lon ts (.response 200 true m) st).request.timestamp = ts ∧
    (sendLocation lat lon ts (.response 200 true m) st).state.errorMessage = none :=
  ⟨rfl, rfl, rfl, rfl, rfl⟩

/-- Claim C2, counterexample: on HTTP 500 with JSON body message
db down, the message surfaced to the user (alert and error banner) is
the fixed string, which contains neither the server text nor the
status. -/
theorem sendLocation_dbdown_counterexample :
    (sendLocation 0 0 "ts" dbDownResp readyState).alert =
      some "An unexpected error occurred" ∧
    (sendLocation 0 0 "ts" dbDownResp readyState).state.errorMessage =
      some "An unexpected error occurred" ∧
    stringIncludes "An unexpected error occurred" "db down" = false ∧
    stringIncludes "An unexpected error occurred" "500" = false := by
  refine ⟨rfl, rfl, by decide, by decide⟩

/-- Claim C2, amended: the error raised internally by the transmitter
carries the status and the server text, but the message surfaced to the
user is the fixed classifier fallback. -/
theorem sendLocation_dbdown_amended (lat lon : ℝ) (ts : String) (st : ControllerState) :
    (sendLocation lat lon ts dbDownResp st).raised = some "Error 500: db down" ∧
    stringIncludes "Error 500: db down" "db down" = true ∧
    stringIncludes "Error 500: db down" "500" = true ∧
    (sendLocation lat lon ts dbDownResp st).alert = some "An unexpected error occurred" ∧
    (sendLocation lat lon ts dbDownResp st).state.errorMessage =
      some "An unexpected error occurred" := by
  refine ⟨rfl, by decide, by decide, rfl, rfl⟩

/-- Claim C7, counterexample: a background wake delivering one location
and no error extracts and logs the coordinate but issues no POST at
all, the send step being an unimplemented stub. -/
theorem backgroundTask_no_post_counterexample :
    (backgroundTaskCallback false (some [⟨3, 4⟩])).requests = [] ∧
    (backgroundTaskCallback false (some [⟨3, 4⟩])).logged = some (3, 4) ∧
    (backgroundTaskCallback false (some [⟨3, 4⟩])).crashed = false :=
  ⟨rfl, rfl, rfl⟩

/-- Claim C7, amended: on every background wake that delivers a
non-empty locations array without an error, the callback extracts the
first reported position and logs it, and issues no POST and reads no
endpoint, the send logic being an unimplemented stub. -/
theorem backgroundTask_extracts_first_amended (l0 : BgLocationObject)
    (rest : List BgLocationObject) :
    backgroundTaskCallback false (some (l0 :: rest)) =
      { requests := [], logged := some (l0.latitude, l0.longitude), crashed := false } :=
  rfl

/-- Claim C10: with data and no error, the extraction of the first
element of the locations array is defined exactly when the array is
non-empty; on an empty array the unguarded indexing fails. -/
theorem backgroundTask_unguarded_indexing (ls : List BgLocationObject) :
    ((backgroundTaskCallback false (some ls)).crashed = true ↔ ls = []) ∧
    ((backgroundTaskCallback false (some ls)).logged.isSome = true ↔ ls ≠ []) := by
  cases ls with
  | nil => simp [backgroundTaskCallback]
  | cons l rest => simp [backgroundTaskCallback]

/-- Claim C9, counterexample: the timer armed by a successful start
fires every 10000 ms, while the background hook registers a 60000 ms
time interval with the platform; the two are not equal. -/
theorem interval_mismatch_counterexample :
    (startSending okEnv readyState).state.armedTimers.map TimerRec.intervalMs = [10000] ∧
    backgroundUpdateOptions.timeInterval = 60000 ∧
    foregroundIntervalMs ≠ backgroundUpdateOptions.timeInterval := by
  refine ⟨rfl, rfl, by decide⟩

/-- Claim C5, counterexample: in the unnamed revision, starting from a
reachable state with one armed timer, startSending never disarms it, so
afterwards two repeating timers are armed and the old handle 0 is still
armed. -/
theorem startSending_v2_double_arm_counterexample :
    timerInv armedState ∧
    (startSending_v2 okEnv armedState).state.armedTimers.map TimerRec.tid = [1, 0] ∧
    (startSending_v2 okEnv armedState).state.armedTimers.length = 2 ∧
    (startSending_v2 okEnv armedState).state.intervalId = some 1 := by
  refine ⟨by decide, rfl, rfl, rfl⟩

/-- Claim C6, counterexample: when the initial location fix succeeds but
the initial send fails with HTTP 500, the start sequence does not
abort: the repeating timer is armed and the controller stays in the
sending state, with only the classified error message recorded. -/
theorem initial_send_failure_still_arms_counterexample :
    (startSending failSendEnv readyState).state.isSending = true ∧
    (startSending failSendEnv readyState).state.intervalId = some 0 ∧
    (startSending failSendEnv readyState).state.armedTimers.length = 1 ∧
    (startSending failSendEnv readyState).requests.length = 1 ∧
    (startSending failSendEnv readyState).state.errorMessage =
      some "An unexpected error occurred" := by
  refine ⟨rfl, rfl, rfl, rfl, rfl⟩

/-- Claim C1: when a previous sample exists, the change-gate reports
send exactly when the haversine great-circle distance (Earth radius
6371000 m) between the previous and new coordinates exceeds the fixed
threshold; in particular the gate on a pair of identical samples is
false, the distance being zero. -/
theorem changeGate_haversine_and_self (p n a : Coordinates) :
    (hasLocationChanged (some p) n ↔
      calculateDistanceInMeters p.latitude p.longitude n.latitude n.longitude >
        thresholdMeters) ∧
    ¬ hasLocationChanged (some a) a := by
  constructor
  · exact Iff.rfl
  · show ¬ (calculateDistanceInMeters a.latitude a.longitude a.latitude a.longitude >
      thresholdMeters)
    rw [calculateDistance_self]
    norm_num [thresholdMeters]

/-- Claim C3: starting with the empty endpoint issues no network
request, surfaces the configuration alert, and leaves the controller
idle with no timer referenced. -/
theorem startSending_emptyUrl_blocks (env : StartEnv) (st : ControllerState)
    (h : st.apiUrl = "") :
    (startSending env st).requests = [] ∧
    (startSending env st).alerts = ["API URL is not set"] ∧
    (startSending env st).state.isSending = false ∧
    (startSending env st).state.intervalId = none := by
  have h1 : (clearExistingTimer { st with isSending := true }).apiUrl = "" := by
    rw [(clearExistingTimer_fields _).1]
    exact h
  refine ⟨?_, ?_, ?_, ?_⟩ <;> simp only [startSending] <;> rw [if_pos h1]
  exact clearExistingTimer_intervalId _

theorem startSending_emptyUrl_blocks_witness :
    emptyState.apiUrl = "" ∧
    ((startSending okEnv emptyState).requests = [] ∧
     (startSending okEnv emptyState).alerts = ["API URL is not set"] ∧
     (startSending okEnv emptyState).state.isSending = false ∧
     (startSending okEnv emptyState).state.intervalId = none) :=
  ⟨rfl, startSending_emptyUrl_blocks okEnv emptyState rfl⟩

/-- Claim C4: stopping from a state whose armed timers are exactly the
one referenced by intervalId disarms the timer, clears the
last-known-location display state, and no POST is issued on any
sequence of subsequent scheduler steps. -/
theorem stopSending_halts_ticks (st : ControllerState)
    (h : st.armedTimers.map TimerRec.tid = st.intervalId.toList)
    (evs : List (Nat × TickEnv)) :
    (stopSending st).intervalId = none ∧
    (stopSending st).location = none ∧
    (stopSending st).armedTimers = [] ∧
    (fireTimers evs (stopSending st)).2 = [] := by
  have hA : (clearExistingTimer st).armedTimers = [] :=
    armedTimers_clearExisting_of_inv st h
  have h1 : (stopSending st).armedTimers = [] := by
    simp only [stopSending]
    exact hA
  have h2 : (stopSending st).intervalId = none := by
    simp only [stopSending]
    exact clearExistingTimer_intervalId st
  refine ⟨h2, rfl, h1, ?_⟩
  rw [fireTimers_of_no_armed evs _ h1]

theorem stopSending_halts_ticks_witness :
    armedState.armedTimers.map TimerRec.tid = armedState.intervalId.toList ∧
    ((stopSending armedState).intervalId = none ∧
     (stopSending armedState).location = none ∧
     (stopSending armedState).armedTimers = [] ∧
     (fireTimers [(0, TickEnv.fixFailure)] (stopSending armedState)).2 = []) :=
  ⟨rfl, stopSending_halts_ticks armedState rfl [(0, TickEnv.fixFailure)]⟩

/-- Claim C5, amended: in the first App.tsx revision the single-timer
invariant holds: it bounds the armed timers by one, it is preserved by
startSending, stopSending and scheduler steps, and a start performed
while a timer is armed leaves the old handle disarmed. The unnamed
revision violates the claim (see the counterexample). -/
theorem timer_invariant_amended :
    (∀ st, timerInv st → st.armedTimers.length ≤ 1) ∧
    (∀ env st, timerInv st → timerInv (startSending env st).state) ∧
    (∀ st, timerInv st → timerInv (stopSending st)) ∧
    (∀ t env st, timerInv st → timerInv (fireTimer t env st).1) ∧
    (∀ env st id, timerInv st → st.intervalId = some id →
      id ∈ (startSending env st).state.armedTimers.map TimerRec.tid → False) := by
  refine ⟨?_, ?_, ?_, ?_, ?_⟩
  · intro st hinv
    have hl : st.armedTimers.length = st.intervalId.toList.length := by
      rw [← hinv.1, List.length_map]
    rw [hl]
    cases st.intervalId <;> simp
  · intro env st hinv
    rcases startSending_timer_shape env st hinv.1 with ⟨hA, hI, _⟩ | ⟨hA, hI, hN⟩
    · constructor
      · rw [hA, hI]; rfl
      · intro r hr; rw [hA] at hr; exact absurd hr (List.not_mem_nil r)
    · constructor
      · rw [hA, hI]; rfl
      · intro r hr
        rw [hA] at hr
        rw [List.mem_singleton.mp hr, hN]
        exact Nat.lt_succ_self _
  · intro st hinv
    have hA : (clearExistingTimer st).armedTimers = [] :=
      armedTimers_clearExisting_of_inv st hinv.1
    have h1 : (stopSending st).armedTimers = [] := by
      simp only [stopSending]; exact hA
    have h2 : (stopSending st).intervalId = none := by
      simp only [stopSending]; exact clearExistingTimer_intervalId st
    constructor
    · rw [h1, h2]; rfl
    · intro r hr; rw [h1] at hr; exact absurd hr (List.not_mem_nil r)
  · intro t env st hinv
    obtain ⟨e1, e2, e3⟩ := fireTimer_preserves_timers t env st
    unfold timerInv
    rw [e1, e2, e3]
    exact hinv
  · intro env st id hinv hI hmem
    rcases startSending_timer_shape env st hinv.1 with ⟨hA, _, _⟩ | ⟨hA, _, _⟩
    · rw [hA] at hmem
      exact absurd hmem (List.not_mem_nil id)
    · rw [hA] at hmem
      have hid : id = st.nextTimerId := by simpa using hmem
      obtain ⟨r, hr, hrtid⟩ := mem_tid_of_intervalId st id hinv.1 hI
      have : r.tid < st.nextTimerId := hinv.2 r hr
      rw [hrtid, hid] at this
      exact lt_irrefl _ this

theorem timer_invariant_amended_witness :
    timerInv armedState ∧ timerInv (startSending okEnv armedState).state :=
  ⟨by decide, timer_invariant_amended.2.1 okEnv armedState (by decide)⟩

/-- Claim C6, amended: an exception during a timer tick (a location
fetch failure, or a transport failure handled inside the transmitter)
never disarms any timer, so the loop continues; a failure of the
initial location fetch aborts the start sequence to idle without arming
a timer; a transport failure of the initial send, however, does not
abort it (see the counterexample). -/
theorem tick_failure_selfheal_amended :
    (∀ t env st, ((fireTimer t env st).1).armedTimers = st.armedTimers ∧
      ((fireTimer t env st).1).intervalId = st.intervalId) ∧
    (∀ t st, fireTimer t TickEnv.fixFailure st = (st, [])) ∧
    (∀ env st, env.initialFix = none →
      (startSending env st).state.isSending = false ∧
      (startSending env st).state.intervalId = none ∧
      (startSending env st).requests = []) := by
  refine ⟨?_, ?_, ?_⟩
  · intro t env st
    exact ⟨(fireTimer_preserves_timers t env st).1, (fireTimer_preserves_timers t env st).2.1⟩
  · intro t st
    unfold fireTimer
    split
    · rfl
    · rfl
  · intro env st hF
    simp only [startSending]
    split_ifs with h1 h2 h3
    · exact ⟨rfl, clearExistingTimer_intervalId _, rfl⟩
    · exact ⟨rfl, clearExistingTimer_intervalId _, rfl⟩
    · exact ⟨rfl, clearExistingTimer_intervalId _, rfl⟩
    · rw [hF]
      exact ⟨rfl, clearExistingTimer_intervalId _, rfl⟩

theorem tick_failure_selfheal_amended_witness :
    noFixEnv.initialFix = none ∧
    ((startSending noFixEnv armedState).state.isSending = false ∧
     (startSending noFixEnv armedState).state.intervalId = none ∧
     (startSending noFixEnv armedState).requests = []) :=
  ⟨rfl, tick_failure_selfheal_amended.2.2 noFixEnv armedState rfl⟩

/-- Claim C9, amended: the controller arms its repeating timer with a
10000 ms interval in every revision, while the background hook
registers a 60000 ms time interval with the platform; the two
intervals are not equal. -/
theorem interval_values_amended :
    foregroundIntervalMs = 10000 ∧
    backgroundUpdateOptions.timeInterval = 60000 ∧
    foregroundIntervalMs ≠ backgroundUpdateOptions.timeInterval ∧
    ∀ env st r, r ∈ (startSending env st).state.armedTimers →
      r ∈ st.armedTimers ∨ r.intervalMs = foregroundIntervalMs := by
  refine ⟨rfl, rfl, by decide, ?_⟩
  intro env st r hmem
  revert hmem
  simp only [startSending]
  split_ifs with h1 h2 h3
  · intro hmem
    exact Or.inl (mem_clearExistingTimer { st with isSending := true } r hmem)
  · intro hmem
    exact Or.inl (mem_clearExistingTimer { st with isSending := true } r hmem)
  · intro hmem
    exact Or.inl (mem_clearExistingTimer { st with isSending := true } r hmem)
  · cases hF : env.initialFix with
    | none =>
        intro hmem
        exact Or.inl (mem_clearExistingTimer { st with isSending := true } r hmem)
    | some c =>
        intro hmem
        obtain ⟨e1, _, _⟩ := sendLocation_preserves_timers c.latitude c.longitude
          env.sendTimestamp env.initialTransport (clearExistingTimer { st with isSending := true })
        rcases List.mem_cons.mp (by simpa [armNewTimer, recordInitialLocation, e1] using hmem) with
          heq | htail
        · exact Or.inr (by rw [heq])
        · exact Or.inl (mem_clearExistingTimer { st with isSending := true } r htail)

theorem interval_values_amended_witness :
    (⟨0, 10000⟩ : TimerRec) ∈ (startSending okEnv readyState).state.armedTimers ∧
    ((⟨0, 10000⟩ : TimerRec) ∈ readyState.armedTimers ∨
     (⟨0, 10000⟩ : TimerRec).intervalMs = foregroundIntervalMs) :=
  ⟨by decide, interval_values_amended.2.2.2 okEnv readyState ⟨0, 10000⟩ (by decide)⟩

end NavoApp
